import Mathlib

set_option maxHeartbeats 1000000
set_option maxRecDepth 8000

/-!
Shallow embedding of the duonest-backend real-time presence, delivery-receipt
and live-typing subsystems, together with theorems settling the frozen claims.

The embedding follows the TypeScript source:
  * `PresenceService`   — src/services/presenceService.ts
  * `MessageService`    — services/messageService.ts
  * socket event handlers ("live-typing", "message-delivered", "message-seen")
    — the Socket.IO section of the server entry file.

JavaScript `Map`s are modelled as functions into `Option`; `Date.now()` and
SQL `NOW()` are modelled by an explicit `now : Nat` parameter; database rows
live in an explicit table value threaded through each operation.
-/

/-! ## Connection Registry (src/services/presenceService.ts)

```ts
const activeUsers = new Map<string, string>(); // userId -> socketId
const userSockets = new Map<string, string>(); // socketId -> userId
```
The fire-and-forget `updateUserPresence` database touch never reads or writes
the two maps, so it is omitted from the registry state. -/

def mapSet (m : String → Option String) (k v : String) : String → Option String :=
  fun k2 => if k2 = k then some v else m k2

def mapDelete (m : String → Option String) (k : String) : String → Option String :=
  fun k2 => if k2 = k then none else m k2

structure Presence where
  activeUsers : String → Option String
  userSockets : String → Option String

def Presence.empty : Presence := ⟨fun _ => none, fun _ => none⟩

/-- `setUserOnline(userId, socketId)`: `activeUsers.set(userId, socketId);
userSockets.set(socketId, userId);` — note that no stale reverse entry for a
previous socket of the same user is removed. -/
def PresenceService.setUserOnline (userId socketId : String) (st : Presence) : Presence :=
  { activeUsers := mapSet st.activeUsers userId socketId
    userSockets := mapSet st.userSockets socketId userId }

/-- `setUserOffline(socketId)`: looks the socket up in `userSockets`; when found,
deletes `activeUsers[userId]` and `userSockets[socketId]` and returns the userId,
otherwise returns null and changes nothing. -/
def PresenceService.setUserOffline (socketId : String) (st : Presence) :
    Option String × Presence :=
  match st.userSockets socketId with
  | some userId =>
      (some userId,
        { activeUsers := mapDelete st.activeUsers userId
          userSockets := mapDelete st.userSockets socketId })
  | none => (none, st)

def PresenceService.getUserBySocketId (socketId : String) (st : Presence) : Option String :=
  st.userSockets socketId

def PresenceService.getSocketByUserId (userId : String) (st : Presence) : Option String :=
  st.activeUsers userId

def PresenceService.isUserOnline (userId : String) (st : Presence) : Bool :=
  (st.activeUsers userId).isSome

/-! ## Message store (services/messageService.ts, table from 006/011 migrations)

A `messages` row; `SERIAL` ids are modelled by `nextId`, `TIMESTAMP` columns by
`Nat`, nullable columns by `Option`. -/

structure Message where
  id : Nat
  room_id : String
  sender_id : String
  content : String
  message_type : String
  file_url : Option String
  file_name : Option String
  file_size : Option Nat
  thumbnail_url : Option String
  duration : Option Nat
  reply_to_message_id : Option Nat
  location_lat : Option Rat
  location_lng : Option Rat
  emoji : Option String
  image_width : Option Nat
  image_height : Option Nat
  video_duration : Option Nat
  video_width : Option Nat
  video_height : Option Nat
  video_bitrate : Option Nat
  created_at : Nat
  delivered_at : Option Nat
  seen_at : Option Nat
  seen_by_user_id : Option String
deriving DecidableEq

/-- The argument object of `MessageService.saveMessage`. -/
structure MessageDraft where
  room_id : String
  sender_id : String
  content : String
  message_type : String := "text"
  file_url : Option String := none
  file_name : Option String := none
  file_size : Option Nat := none
  thumbnail_url : Option String := none
  duration : Option Nat := none
  reply_to_message_id : Option Nat := none
  location_lat : Option Rat := none
  location_lng : Option Rat := none
  emoji : Option String := none
  image_width : Option Nat := none
  image_height : Option Nat := none
  video_duration : Option Nat := none
  video_width : Option Nat := none
  video_height : Option Nat := none
  video_bitrate : Option Nat := none
deriving DecidableEq

structure MessagesTable where
  rows : Nat → Option Message
  nextId : Nat

def MessagesTable.empty : MessagesTable := ⟨fun _ => none, 1⟩

/-- `saveMessage`: `INSERT INTO messages (...) VALUES (..., NOW()) RETURNING *`.
The `delivered_at`, `seen_at`, `seen_by_user_id` columns are not in the column
list, so the inserted row carries their `NULL` defaults. -/
def MessageService.saveMessage (d : MessageDraft) (now : Nat) (db : MessagesTable) :
    Message × MessagesTable :=
  let m : Message :=
    { id := db.nextId
      room_id := d.room_id
      sender_id := d.sender_id
      content := d.content
      message_type := d.message_type
      file_url := d.file_url
      file_name := d.file_name
      file_size := d.file_size
      thumbnail_url := d.thumbnail_url
      duration := d.duration
      reply_to_message_id := d.reply_to_message_id
      location_lat := d.location_lat
      location_lng := d.location_lng
      emoji := d.emoji
      image_width := d.image_width
      image_height := d.image_height
      video_duration := d.video_duration
      video_width := d.video_width
      video_height := d.video_height
      video_bitrate := d.video_bitrate
      created_at := now
      delivered_at := none
      seen_at := none
      seen_by_user_id := none }
  (m, { rows := fun i => if i = db.nextId then some m else db.rows i
        nextId := db.nextId + 1 })

/-- `markMessageAsDelivered`:
`UPDATE messages SET delivered_at = NOW() WHERE id = $1` — unconditional:
no `delivered_at IS NULL` guard, so an already-set value is overwritten. -/
def MessageService.markMessageAsDelivered (messageId now : Nat) (db : MessagesTable) :
    MessagesTable :=
  { db with
      rows := fun i =>
        if i = messageId then (db.rows i).map (fun m => { m with delivered_at := some now })
        else db.rows i }

/-- `markMessageAsSeen`:
`UPDATE messages SET seen_at = NOW(), seen_by_user_id = $2 WHERE id = $1` —
also unconditional. -/
def MessageService.markMessageAsSeen (messageId : Nat) (userId : String) (now : Nat)
    (db : MessagesTable) : MessagesTable :=
  { db with
      rows := fun i =>
        if i = messageId then
          (db.rows i).map (fun m => { m with seen_at := some now, seen_by_user_id := some userId })
        else db.rows i }

/-- `getMessage`: `SELECT * FROM messages WHERE id = $1`, first row or null. -/
def MessageService.getMessage (messageId : Nat) (db : MessagesTable) : Option Message :=
  db.rows messageId

/-! ## Shared concrete fixtures used by witnesses and counterexamples -/

def draftHi : MessageDraft := { room_id := "r", sender_id := "a", content := "hi" }

def msg0 : Message := (MessageService.saveMessage draftHi 0 MessagesTable.empty).1

def db0 : MessagesTable := (MessageService.saveMessage draftHi 0 MessagesTable.empty).2

/-! ## Claims about the Connection Registry -/

/-- C1 counterexample: user "u" connects with socket "s1", reconnects with
socket "s2" (which supersedes "s1"), then `setUserOffline("s1")` is called.
The claim says this returns none and leaves "u" online on "s2"; in fact the
stale `userSockets` entry for "s1" survives the reconnect, so the call returns
`some "u"`, marks "u" offline and drops its routing to "s2". -/
theorem C1_counterexample :
    (PresenceService.setUserOffline "s1"
        (PresenceService.setUserOnline "u" "s2"
          (PresenceService.setUserOnline "u" "s1" Presence.empty))).1 = some "u" ∧
    PresenceService.isUserOnline "u"
        (PresenceService.setUserOffline "s1"
          (PresenceService.setUserOnline "u" "s2"
            (PresenceService.setUserOnline "u" "s1" Presence.empty))).2 = false ∧
    PresenceService.getSocketByUserId "u"
        (PresenceService.setUserOffline "s1"
          (PresenceService.setUserOnline "u" "s2"
            (PresenceService.setUserOnline "u" "s1" Presence.empty))).2 = none := by
  decide

/-- C1 (amended): `setUserOnline` does not purge the superseded socket's
reverse mapping, so for any user who connected on `c1` and then on `c2 ≠ c1`,
`setUserOffline(c1)` still resolves the stale entry: it returns `some u`,
after which `isUserOnline u` is false and `getSocketByUserId u` is none —
a disconnect of a superseded connection is NOT a no-op. -/
theorem C1_superseded_disconnect (st : Presence) (u c1 c2 : String) (h : c1 ≠ c2) :
    (PresenceService.setUserOffline c1
        (PresenceService.setUserOnline u c2 (PresenceService.setUserOnline u c1 st))).1
      = some u ∧
    PresenceService.isUserOnline u
        (PresenceService.setUserOffline c1
          (PresenceService.setUserOnline u c2 (PresenceService.setUserOnline u c1 st))).2
      = false ∧
    PresenceService.getSocketByUserId u
        (PresenceService.setUserOffline c1
          (PresenceService.setUserOnline u c2 (PresenceService.setUserOnline u c1 st))).2
      = none := by
  simp [PresenceService.setUserOffline, PresenceService.setUserOnline,
    PresenceService.isUserOnline, PresenceService.getSocketByUserId,
    mapSet, mapDelete, h]

theorem C1_superseded_disconnect_witness :
    ("s1" : String) ≠ "s2" ∧
    ((PresenceService.setUserOffline "s1"
        (PresenceService.setUserOnline "u" "s2"
          (PresenceService.setUserOnline "u" "s1" Presence.empty))).1 = some "u" ∧
      PresenceService.isUserOnline "u"
          (PresenceService.setUserOffline "s1"
            (PresenceService.setUserOnline "u" "s2"
              (PresenceService.setUserOnline "u" "s1" Presence.empty))).2 = false ∧
      PresenceService.getSocketByUserId "u"
          (PresenceService.setUserOffline "s1"
            (PresenceService.setUserOnline "u" "s2"
              (PresenceService.setUserOnline "u" "s1" Presence.empty))).2 = none) :=
  ⟨by decide, C1_superseded_disconnect Presence.empty "u" "s1" "s2" (by decide)⟩

/-- C10: re-identifying a connection `c` (previously recorded for `u1`) under a
new user `u2` deletes nothing of `u1`: `setUserOnline(u2, c)` only overwrites
`userSockets[c]` and adds `activeUsers[u2]`, so `u1` stays online and still
resolves to `c`, while `c` now maps back to `u2`. -/
theorem C10_reidentify_keeps_old_user (st : Presence) (u1 u2 c : String)
    (h1 : PresenceService.getSocketByUserId u1 st = some c)
    (hne : u1 ≠ u2) :
    PresenceService.isUserOnline u1 (PresenceService.setUserOnline u2 c st) = true ∧
    PresenceService.getSocketByUserId u1 (PresenceService.setUserOnline u2 c st) = some c ∧
    PresenceService.getUserBySocketId c (PresenceService.setUserOnline u2 c st) = some u2 := by
  simp [PresenceService.setUserOnline, PresenceService.isUserOnline,
    PresenceService.getSocketByUserId, PresenceService.getUserBySocketId,
    mapSet, hne] at h1 ⊢
  simp [h1]

theorem C10_reidentify_keeps_old_user_witness :
    (PresenceService.getSocketByUserId "u1"
        (PresenceService.setUserOnline "u1" "c" Presence.empty) = some "c" ∧
      ("u1" : String) ≠ "u2") ∧
    (PresenceService.isUserOnline "u1"
        (PresenceService.setUserOnline "u2" "c"
          (PresenceService.setUserOnline "u1" "c" Presence.empty)) = true ∧
      PresenceService.getSocketByUserId "u1"
          (PresenceService.setUserOnline "u2" "c"
            (PresenceService.setUserOnline "u1" "c" Presence.empty)) = some "c" ∧
      PresenceService.getUserBySocketId "c"
          (PresenceService.setUserOnline "u2" "c"
            (PresenceService.setUserOnline "u1" "c" Presence.empty)) = some "u2") :=
  ⟨⟨by decide, by decide⟩,
    C10_reidentify_keeps_old_user
      (PresenceService.setUserOnline "u1" "c" Presence.empty) "u1" "u2" "c"
      (by decide) (by decide)⟩

/-! ## Claims about the Message Store Gateway -/

/-- C2 counterexample: message 1 is marked delivered at time 10 and again at
time 20; the second invocation is not a no-op — it overwrites `delivered_at`
with 20 instead of retaining the first value 10. Likewise `markMessageAsSeen`
re-invoked with a different confirmer overwrites both `seen_at` and
`seen_by_user_id`. -/
theorem C2_counterexample :
    MessageService.getMessage 1
        (MessageService.markMessageAsDelivered 1 20
          (MessageService.markMessageAsDelivered 1 10 db0))
      ≠ MessageService.getMessage 1 (MessageService.markMessageAsDelivered 1 10 db0) ∧
    (MessageService.getMessage 1
        (MessageService.markMessageAsDelivered 1 20
          (MessageService.markMessageAsDelivered 1 10 db0))).map Message.delivered_at
      = some (some 20) ∧
    (MessageService.getMessage 1
        (MessageService.markMessageAsSeen 1 "c" 40
          (MessageService.markMessageAsSeen 1 "b" 30 db0))).map Message.seen_at
      = some (some 40) ∧
    (MessageService.getMessage 1
        (MessageService.markMessageAsSeen 1 "c" 40
          (MessageService.markMessageAsSeen 1 "b" 30 db0))).map Message.seen_by_user_id
      = some (some "c") := by
  refine ⟨?_, by decide, by decide, by decide⟩
  intro h
  have h2 := congrArg (Option.map Message.delivered_at) h
  revert h2
  decide

/-- C2 (amended): the receipt updates are last-write-wins, not
set-at-most-once: for an existing message, re-invoking `markMessageAsDelivered`
overwrites `delivered_at` with the latest invocation's timestamp, and
re-invoking `markMessageAsSeen` overwrites `seen_at` and `seen_by_user_id`
with the latest invocation's values. -/
theorem C2_receipt_updates_overwrite (db : MessagesTable) (id t1 t2 : Nat)
    (u1 u2 : String) (m : Message)
    (hm : MessageService.getMessage id db = some m) :
    (MessageService.getMessage id
        (MessageService.markMessageAsDelivered id t2
          (MessageService.markMessageAsDelivered id t1 db))).map Message.delivered_at
      = some (some t2) ∧
    (MessageService.getMessage id
        (MessageService.markMessageAsSeen id u2 t2
          (MessageService.markMessageAsSeen id u1 t1 db))).map Message.seen_at
      = some (some t2) ∧
    (MessageService.getMessage id
        (MessageService.markMessageAsSeen id u2 t2
          (MessageService.markMessageAsSeen id u1 t1 db))).map Message.seen_by_user_id
      = some (some u2) := by
  simp [MessageService.getMessage, MessageService.markMessageAsDelivered,
    MessageService.markMessageAsSeen] at hm ⊢
  simp [hm]

theorem C2_receipt_updates_overwrite_witness :
    MessageService.getMessage 1 db0 = some msg0 ∧
    ((MessageService.getMessage 1
        (MessageService.markMessageAsDelivered 1 20
          (MessageService.markMessageAsDelivered 1 10 db0))).map Message.delivered_at
      = some (some 20) ∧
    (MessageService.getMessage 1
        (MessageService.markMessageAsSeen 1 "c" 20
          (MessageService.markMessageAsSeen 1 "b" 10 db0))).map Message.seen_at
      = some (some 20) ∧
    (MessageService.getMessage 1
        (MessageService.markMessageAsSeen 1 "c" 20
          (MessageService.markMessageAsSeen 1 "b" 10 db0))).map Message.seen_by_user_id
      = some (some "c")) :=
  ⟨by decide, C2_receipt_updates_overwrite db0 1 10 20 "b" "c" msg0 (by decide)⟩

/-- C9: for every draft (in particular every valid one, with non-empty
content), `saveMessage` inserts the row with `delivered_at` and `seen_at`
unset, and an immediate `getMessage` of the returned id yields exactly that
record. -/
theorem C9_create_then_fetch_unset (db : MessagesTable) (d : MessageDraft) (now : Nat)
    (_hvalid : d.content ≠ "") :
    MessageService.getMessage (MessageService.saveMessage d now db).1.id
        (MessageService.saveMessage d now db).2
      = some (MessageService.saveMessage d now db).1 ∧
    (MessageService.saveMessage d now db).1.delivered_at = none ∧
    (MessageService.saveMessage d now db).1.seen_at = none := by
  simp [MessageService.saveMessage, MessageService.getMessage]

theorem C9_create_then_fetch_unset_witness :
    draftHi.content ≠ "" ∧
    (MessageService.getMessage (MessageService.saveMessage draftHi 0 MessagesTable.empty).1.id
        (MessageService.saveMessage draftHi 0 MessagesTable.empty).2
      = some (MessageService.saveMessage draftHi 0 MessagesTable.empty).1 ∧
    (MessageService.saveMessage draftHi 0 MessagesTable.empty).1.delivered_at = none ∧
    (MessageService.saveMessage draftHi 0 MessagesTable.empty).1.seen_at = none) :=
  ⟨by decide, C9_create_then_fetch_unset MessagesTable.empty draftHi 0 (by decide)⟩

/-! ## Rooms and the Room Access Guard

`couple_rooms` row (the fields used by the guard) and the server's
`validateUserRoomAccess` helper, which wraps `RoomService.getRoom`:
`Boolean(room && (room.user1_id === userId || room.user2_id === userId))`. -/

structure CoupleRoom where
  room_id : String
  user1_id : String
  user2_id : Option String
  is_active : Bool
deriving DecidableEq

def validateUserRoomAccess (rooms : String → Option CoupleRoom)
    (userId roomId : String) : Bool :=
  match rooms roomId with
  | some room => room.user1_id == userId || room.user2_id == some userId
  | none => false

/-! ## Outbound emissions

One constructor per `emit` call site of the embedded handlers, carrying the
payload fields of that call. `errorToOrigin` is `socket.emit("error", ...)`;
the `...ToRoom` constructors are `socket.to(roomId).emit(...)`; the
`...ToSocket` constructors are `io.to(socketId).emit(...)`. -/

inductive SocketEmit where
  | errorToOrigin (message : String)
  | liveTypingToRoom (roomId userId : String) (content : Option String)
      (cursorPosition : Option Nat) (action : Option String) (timestamp : Nat)
  | seenConfirmedToRoom (roomId : String) (messageId : Nat) (seenBy : String) (seenAt : Nat)
  | deliveryConfirmedToSocket (socketId : String) (messageId : Nat) (deliveredAt : Nat)
  | messageSeenToSocket (socketId : String) (messageId : Nat)
      (seenBy senderId roomId : String) (seenAt : Nat)
  | statusUpdateSeenToSocket (socketId : String) (messageId : Nat) (seenBy : String) (seenAt : Nat)
  | readReceiptToSocket (socketId : String) (messageId : Nat) (readBy : String) (readAt : Nat)
deriving DecidableEq

/-- Socket.IO delivery semantics for one emission issued while handling an
event that arrived on connection `origin`: `socket.emit` addresses the
originating socket, `io.to(sid).emit` addresses exactly that socket, and
`socket.to(roomId).emit` addresses every socket joined to the room EXCEPT
the originating one. -/
def recipients (roomSockets : String → List String) (origin : String) :
    SocketEmit → List String
  | .errorToOrigin _ => [origin]
  | .liveTypingToRoom roomId _ _ _ _ _ => (roomSockets roomId).filter (fun s => s ≠ origin)
  | .seenConfirmedToRoom roomId _ _ _ => (roomSockets roomId).filter (fun s => s ≠ origin)
  | .deliveryConfirmedToSocket sid _ _ => [sid]
  | .messageSeenToSocket sid _ _ _ _ _ => [sid]
  | .statusUpdateSeenToSocket sid _ _ _ => [sid]
  | .readReceiptToSocket sid _ _ _ => [sid]

/-! ## Live-Typing Broadcaster (the "live-typing" socket handler)

`LIVE_TYPING_CONFIG` with its env-var defaults; the throttle map
`throttledLiveTyping : Map<string, number>`; payload fields of the incoming
event. A missing/empty JS string field is modelled as `""` (both are falsy in
the `if (!roomId || !userId)` guard); `timestamp || now` maps a missing or
zero client timestamp to `now`. -/

structure LiveTypingConfig where
  enabled : Bool
  throttleMs : Nat
  maxLength : Nat

def defaultLiveTypingConfig : LiveTypingConfig :=
  { enabled := true, throttleMs := 100, maxLength := 1000 }

structure LiveTypingData where
  roomId : String
  userId : String
  content : Option String := none
  cursorPosition : Option Nat := none
  action : Option String := none
  timestamp : Option Nat := none
deriving DecidableEq

def liveTypingKey (roomId userId : String) : String := roomId ++ "-" ++ userId

def mapSetNat (m : String → Option Nat) (k : String) (v : Nat) : String → Option Nat :=
  fun k2 => if k2 = k then some v else m k2

/-- `if (content && content.length > LIVE_TYPING_CONFIG.maxLength)`. -/
def contentTooLong (cfg : LiveTypingConfig) (content : Option String) : Bool :=
  match content with
  | some c => decide (cfg.maxLength < c.length)
  | none => false

/-- `timestamp || now`. -/
def liveTypingTimestamp (timestamp : Option Nat) (now : Nat) : Nat :=
  match timestamp with
  | some t => if t = 0 then now else t
  | none => now

/-- The `socket.on("live-typing")` handler body: disabled check, falsy-field
check, room-access guard (emits an "error" event on failure), content-length
check (emits an "error" event on failure), then the throttle: if less than
`throttleMs` has elapsed since the last accepted update for the
`roomId-userId` key, the update is skipped; otherwise the key's timestamp is
recorded and the payload is broadcast to the room (except the sender). -/
def liveTypingHandler (cfg : LiveTypingConfig) (rooms : String → Option CoupleRoom)
    (now : Nat) (throttle : String → Option Nat) (d : LiveTypingData) :
    (String → Option Nat) × List SocketEmit :=
  if cfg.enabled = false then (throttle, [])
  else if d.roomId = "" ∨ d.userId = "" then (throttle, [])
  else if validateUserRoomAccess rooms d.userId d.roomId = false then
    (throttle, [SocketEmit.errorToOrigin "Access denied to room"])
  else if contentTooLong cfg d.content = true then
    (throttle, [SocketEmit.errorToOrigin "Content too long for live typing"])
  else if now - ((throttle (liveTypingKey d.roomId d.userId)).getD 0) < cfg.throttleMs then
    (throttle, [])
  else
    (mapSetNat throttle (liveTypingKey d.roomId d.userId) now,
      [SocketEmit.liveTypingToRoom d.roomId d.userId d.content d.cursorPosition d.action
        (liveTypingTimestamp d.timestamp now)])

/-- A sequence of "live-typing" events with the same payload `d`, arriving at
the given clock readings, processed in order against the throttle map. -/
def liveTypingRun (cfg : LiveTypingConfig) (rooms : String → Option CoupleRoom)
    (d : LiveTypingData) :
    (String → Option Nat) → List Nat → (String → Option Nat) × List SocketEmit
  | throttle, [] => (throttle, [])
  | throttle, t :: ts =>
      let r := liveTypingHandler cfg rooms t throttle d
      let rest := liveTypingRun cfg rooms d r.1 ts
      (rest.1, r.2 ++ rest.2)

def isLiveTypingRelay : SocketEmit → Bool
  | .liveTypingToRoom _ _ _ _ _ _ => true
  | _ => false

def relayCount (out : List SocketEmit) : Nat := (out.filter isLiveTypingRelay).length

/-! ## Receipt-confirmation handlers

`Number(messageId)` turns the incoming id into a JS number (possibly NaN);
a finite number is modelled as an exact rational. The handlers reject NaN,
non-positive and non-integer values before touching the store. -/

inductive JsNumber where
  | nan
  | num (q : Rat)
deriving DecidableEq

/-- The id-validation prefix shared by the "message-delivered" and
"message-seen" handlers: `isNaN(v) || v <= 0 || !Number.isInteger(v)`
rejects; otherwise the integer id is used. -/
def parseMessageId : JsNumber → Option Nat
  | .nan => none
  | .num q => if q ≤ 0 ∨ q.den ≠ 1 then none else some q.num.toNat

/-- The `socket.on("message-delivered")` handler body: validate the id, mark
the row delivered, re-fetch the message, and when it exists and its sender is
online, notify the sender's socket. -/
def messageDeliveredHandler (presence : Presence) (db : MessagesTable)
    (mid : JsNumber) (now : Nat) : MessagesTable × List SocketEmit :=
  match parseMessageId mid with
  | none => (db, [])
  | some id =>
      let db2 := MessageService.markMessageAsDelivered id now db
      match MessageService.getMessage id db2 with
      | none => (db2, [])
      | some m =>
          match PresenceService.getSocketByUserId m.sender_id presence with
          | some sid => (db2, [SocketEmit.deliveryConfirmedToSocket sid id now])
          | none => (db2, [])

/-- The `socket.on("message-seen")` handler body: validate the id and the
(falsy-checked) confirming userId, mark the row seen — with NO room-membership
check on the confirming user — re-fetch the message, and when it exists emit:
sender-directed "message-seen" and "message-status-update" (only if the sender
is online), the room broadcast "message-seen-confirmed", and a sender-directed
"message-read-receipt". -/
def messageSeenHandler (presence : Presence) (db : MessagesTable)
    (mid : JsNumber) (userId : String) (now : Nat) : MessagesTable × List SocketEmit :=
  match parseMessageId mid with
  | none => (db, [])
  | some id =>
      if userId = "" then (db, [])
      else
        let db2 := MessageService.markMessageAsSeen id userId now db
        match MessageService.getMessage id db2 with
        | none => (db2, [])
        | some m =>
            match PresenceService.getSocketByUserId m.sender_id presence with
            | some sid =>
                (db2,
                  [SocketEmit.messageSeenToSocket sid id userId m.sender_id m.room_id now,
                    SocketEmit.statusUpdateSeenToSocket sid id userId now,
                    SocketEmit.seenConfirmedToRoom m.room_id id userId now,
                    SocketEmit.readReceiptToSocket sid id userId now])
            | none =>
                (db2, [SocketEmit.seenConfirmedToRoom m.room_id id userId now])

/-! ## Handler step lemmas -/

theorem liveTypingHandler_dropped (cfg : LiveTypingConfig) (rooms : String → Option CoupleRoom)
    (now : Nat) (throttle : String → Option Nat) (d : LiveTypingData)
    (hen : cfg.enabled = true) (hroom : d.roomId ≠ "") (huser : d.userId ≠ "")
    (hauth : validateUserRoomAccess rooms d.userId d.roomId = true)
    (hlen : contentTooLong cfg d.content = false)
    (hc : now - ((throttle (liveTypingKey d.roomId d.userId)).getD 0) < cfg.throttleMs) :
    liveTypingHandler cfg rooms now throttle d = (throttle, []) := by
  simp [liveTypingHandler, hen, hroom, huser, hauth, hlen, hc]

theorem liveTypingHandler_accepted (cfg : LiveTypingConfig) (rooms : String → Option CoupleRoom)
    (now : Nat) (throttle : String → Option Nat) (d : LiveTypingData)
    (hen : cfg.enabled = true) (hroom : d.roomId ≠ "") (huser : d.userId ≠ "")
    (hauth : validateUserRoomAccess rooms d.userId d.roomId = true)
    (hlen : contentTooLong cfg d.content = false)
    (hc : ¬ now - ((throttle (liveTypingKey d.roomId d.userId)).getD 0) < cfg.throttleMs) :
    liveTypingHandler cfg rooms now throttle d
      = (mapSetNat throttle (liveTypingKey d.roomId d.userId) now,
          [SocketEmit.liveTypingToRoom d.roomId d.userId d.content d.cursorPosition d.action
            (liveTypingTimestamp d.timestamp now)]) := by
  simp [liveTypingHandler, hen, hroom, huser, hauth, hlen, hc]

/-! ## C3: authorization failure on the live-typing path -/

/-- C3 counterexample: a live-typing update from user "x" for a room that does
not exist (so authorization fails) is NOT silent — the handler emits an
"error" event with message "Access denied to room", and that emission is
delivered to exactly the originating connection. -/
theorem C3_counterexample :
    (liveTypingHandler defaultLiveTypingConfig (fun _ => none) 1000 (fun _ => none)
        { roomId := "r", userId := "x", content := some "hi" }).2
      = [SocketEmit.errorToOrigin "Access denied to room"] ∧
    recipients (fun _ => []) "origin" (SocketEmit.errorToOrigin "Access denied to room")
      = ["origin"] := by
  constructor
  · rfl
  · rfl

/-- C3 (amended): when authorization fails for a live-typing update (the
sender is not one of the room's member slots, or the room does not exist),
the handler leaves the throttle map untouched and relays nothing to the room,
but it DOES emit an "error" rejection event, delivered to the originating
connection only. -/
theorem C3_unauthorized_live_typing_emits_error (cfg : LiveTypingConfig)
    (rooms : String → Option CoupleRoom) (now : Nat)
    (throttle : String → Option Nat) (d : LiveTypingData)
    (hen : cfg.enabled = true) (hroom : d.roomId ≠ "") (huser : d.userId ≠ "")
    (hauth : validateUserRoomAccess rooms d.userId d.roomId = false) :
    liveTypingHandler cfg rooms now throttle d
      = (throttle, [SocketEmit.errorToOrigin "Access denied to room"]) ∧
    relayCount (liveTypingHandler cfg rooms now throttle d).2 = 0 ∧
    (∀ roomSockets : String → List String, ∀ origin : String,
      recipients roomSockets origin (SocketEmit.errorToOrigin "Access denied to room")
        = [origin]) := by
  have h : liveTypingHandler cfg rooms now throttle d
      = (throttle, [SocketEmit.errorToOrigin "Access denied to room"]) := by
    simp [liveTypingHandler, hen, hroom, huser, hauth]
  refine ⟨h, ?_, fun _ _ => rfl⟩
  simp [h, relayCount, isLiveTypingRelay]

theorem C3_unauthorized_live_typing_emits_error_witness :
    (defaultLiveTypingConfig.enabled = true ∧
      ("r" : String) ≠ "" ∧ ("x" : String) ≠ "" ∧
      validateUserRoomAccess (fun _ => none) "x" "r" = false) ∧
    (liveTypingHandler defaultLiveTypingConfig (fun _ => none) 1000 (fun _ => none)
        { roomId := "r", userId := "x", content := some "hi" }
      = ((fun _ => none), [SocketEmit.errorToOrigin "Access denied to room"]) ∧
    relayCount (liveTypingHandler defaultLiveTypingConfig (fun _ => none) 1000 (fun _ => none)
        { roomId := "r", userId := "x", content := some "hi" }).2 = 0 ∧
    (∀ roomSockets : String → List String, ∀ origin : String,
      recipients roomSockets origin (SocketEmit.errorToOrigin "Access denied to room")
        = [origin])) :=
  ⟨⟨rfl, by decide, by decide, rfl⟩,
    C3_unauthorized_live_typing_emits_error defaultLiveTypingConfig (fun _ => none) 1000
      (fun _ => none) { roomId := "r", userId := "x", content := some "hi" }
      rfl (by decide) (by decide) rfl⟩

/-! ## C8: oversized live-typing content -/

/-- C8: an authorized live-typing update whose content exceeds the configured
maximum length is never relayed: the handler leaves the throttle map
untouched, emits only a "Content too long for live typing" error, and that
error is delivered to the originating connection alone — no connection other
than the origin (in particular no peer) receives anything. -/
theorem C8_oversized_content_not_relayed (cfg : LiveTypingConfig)
    (rooms : String → Option CoupleRoom) (now : Nat)
    (throttle : String → Option Nat) (d : LiveTypingData) (c : String)
    (hen : cfg.enabled = true) (hroom : d.roomId ≠ "") (huser : d.userId ≠ "")
    (hauth : validateUserRoomAccess rooms d.userId d.roomId = true)
    (hc : d.content = some c) (hlen : cfg.maxLength < c.length) :
    liveTypingHandler cfg rooms now throttle d
      = (throttle, [SocketEmit.errorToOrigin "Content too long for live typing"]) ∧
    relayCount (liveTypingHandler cfg rooms now throttle d).2 = 0 ∧
    (∀ roomSockets : String → List String, ∀ origin peer : String, peer ≠ origin →
      ∀ e ∈ (liveTypingHandler cfg rooms now throttle d).2,
        peer ∉ recipients roomSockets origin e) := by
  have h : liveTypingHandler cfg rooms now throttle d
      = (throttle, [SocketEmit.errorToOrigin "Content too long for live typing"]) := by
    simp [liveTypingHandler, hen, hroom, huser, hauth, contentTooLong, hc, hlen]
  refine ⟨h, ?_, ?_⟩
  · simp [h, relayCount, isLiveTypingRelay]
  · intro roomSockets origin peer hpeer e he
    rw [h] at he
    simp at he
    subst he
    simp [recipients, hpeer]

theorem C8_oversized_content_not_relayed_witness :
    (defaultLiveTypingConfig.enabled = true ∧
      ("r" : String) ≠ "" ∧ ("a" : String) ≠ "" ∧
      validateUserRoomAccess
        (fun rid => if rid = "r" then
          some { room_id := "r", user1_id := "a", user2_id := some "b", is_active := true }
          else none) "a" "r" = true ∧
      (LiveTypingData.content
          { roomId := "r", userId := "a",
            content := some (String.mk (List.replicate 1001 'z')) }
        = some (String.mk (List.replicate 1001 'z'))) ∧
      defaultLiveTypingConfig.maxLength < (String.mk (List.replicate 1001 'z')).length) ∧
    (liveTypingHandler defaultLiveTypingConfig
        (fun rid => if rid = "r" then
          some { room_id := "r", user1_id := "a", user2_id := some "b", is_active := true }
          else none) 1000 (fun _ => none)
        { roomId := "r", userId := "a",
          content := some (String.mk (List.replicate 1001 'z')) }
      = ((fun _ => none), [SocketEmit.errorToOrigin "Content too long for live typing"]) ∧
    relayCount (liveTypingHandler defaultLiveTypingConfig
        (fun rid => if rid = "r" then
          some { room_id := "r", user1_id := "a", user2_id := some "b", is_active := true }
          else none) 1000 (fun _ => none)
        { roomId := "r", userId := "a",
          content := some (String.mk (List.replicate 1001 'z')) }).2 = 0 ∧
    (∀ roomSockets : String → List String, ∀ origin peer : String, peer ≠ origin →
      ∀ e ∈ (liveTypingHandler defaultLiveTypingConfig
          (fun rid => if rid = "r" then
            some { room_id := "r", user1_id := "a", user2_id := some "b", is_active := true }
            else none) 1000 (fun _ => none)
          { roomId := "r", userId := "a",
            content := some (String.mk (List.replicate 1001 'z')) }).2,
        peer ∉ recipients roomSockets origin e)) :=
  ⟨⟨rfl, by decide, by decide, by decide, rfl, by decide⟩,
    C8_oversized_content_not_relayed defaultLiveTypingConfig
      (fun rid => if rid = "r" then
        some { room_id := "r", user1_id := "a", user2_id := some "b", is_active := true }
        else none) 1000 (fun _ => none)
      { roomId := "r", userId := "a",
        content := some (String.mk (List.replicate 1001 'z')) }
      (String.mk (List.replicate 1001 'z'))
      rfl (by decide) (by decide) (by decide) rfl (by decide)⟩

/-! ## Throttle run lemmas -/

theorem liveTypingRun_all_dropped (cfg : LiveTypingConfig) (rooms : String → Option CoupleRoom)
    (d : LiveTypingData)
    (hen : cfg.enabled = true) (hroom : d.roomId ≠ "") (huser : d.userId ≠ "")
    (hauth : validateUserRoomAccess rooms d.userId d.roomId = true)
    (hlen : contentTooLong cfg d.content = false)
    (hthr : 0 < cfg.throttleMs) :
    ∀ (ts : List Nat) (throttle : String → Option Nat),
      (∀ t ∈ ts, t < ((throttle (liveTypingKey d.roomId d.userId)).getD 0) + cfg.throttleMs) →
      liveTypingRun cfg rooms d throttle ts = (throttle, []) := by
  intro ts
  induction ts with
  | nil => intro throttle _; rfl
  | cons t ts ih =>
      intro throttle h
      have hd : t < ((throttle (liveTypingKey d.roomId d.userId)).getD 0) + cfg.throttleMs :=
        h t (by simp)
      have hdrop := liveTypingHandler_dropped cfg rooms t throttle d hen hroom huser hauth hlen
        (by omega)
      have htail := ih throttle (fun t2 ht2 => h t2 (by simp [ht2]))
      simp [liveTypingRun, hdrop, htail]

theorem liveTypingRun_relay_le_one (cfg : LiveTypingConfig) (rooms : String → Option CoupleRoom)
    (d : LiveTypingData)
    (hen : cfg.enabled = true) (hroom : d.roomId ≠ "") (huser : d.userId ≠ "")
    (hauth : validateUserRoomAccess rooms d.userId d.roomId = true)
    (hlen : contentTooLong cfg d.content = false)
    (hthr : 0 < cfg.throttleMs) :
    ∀ (ts : List Nat) (throttle : String → Option Nat) (hi : Nat),
      (∀ t ∈ ts, t ≤ hi) →
      hi < ((throttle (liveTypingKey d.roomId d.userId)).getD 0) + 2 * cfg.throttleMs →
      relayCount (liveTypingRun cfg rooms d throttle ts).2 ≤ 1 := by
  intro ts
  induction ts with
  | nil => intro throttle hi _ _; simp [liveTypingRun, relayCount]
  | cons t ts ih =>
      intro throttle hi h hbound
      by_cases hc : t - ((throttle (liveTypingKey d.roomId d.userId)).getD 0) < cfg.throttleMs
      · have hdrop := liveTypingHandler_dropped cfg rooms t throttle d hen hroom huser hauth hlen hc
        have htail := ih throttle hi (fun t2 ht2 => h t2 (by simp [ht2])) hbound
        simp [liveTypingRun, hdrop]
        exact htail
      · have hacc := liveTypingHandler_accepted cfg rooms t throttle d hen hroom huser hauth hlen hc
        have hkey : ((mapSetNat throttle (liveTypingKey d.roomId d.userId) t)
            (liveTypingKey d.roomId d.userId)).getD 0 = t := by
          simp [mapSetNat]
        have ht : ((throttle (liveTypingKey d.roomId d.userId)).getD 0) + cfg.throttleMs ≤ t := by
          omega
        have hrest := liveTypingRun_all_dropped cfg rooms d hen hroom huser hauth hlen hthr ts
          (mapSetNat throttle (liveTypingKey d.roomId d.userId) t)
          (fun t2 ht2 => by
            have h2 := h t2 (by simp [ht2])
            rw [hkey]
            omega)
        simp [liveTypingRun, hacc, hrest, relayCount, isLiveTypingRelay]

theorem liveTypingRun_relay_le_two (cfg : LiveTypingConfig) (rooms : String → Option CoupleRoom)
    (d : LiveTypingData)
    (hen : cfg.enabled = true) (hroom : d.roomId ≠ "") (huser : d.userId ≠ "")
    (hauth : validateUserRoomAccess rooms d.userId d.roomId = true)
    (hlen : contentTooLong cfg d.content = false)
    (hthr : 0 < cfg.throttleMs) :
    ∀ (ts : List Nat) (throttle : String → Option Nat) (lo : Nat),
      (∀ t ∈ ts, lo ≤ t ∧ t ≤ lo + cfg.throttleMs) →
      relayCount (liveTypingRun cfg rooms d throttle ts).2 ≤ 2 := by
  intro ts
  induction ts with
  | nil => intro throttle lo _; simp [liveTypingRun, relayCount]
  | cons t ts ih =>
      intro throttle lo h
      by_cases hc : t - ((throttle (liveTypingKey d.roomId d.userId)).getD 0) < cfg.throttleMs
      · have hdrop := liveTypingHandler_dropped cfg rooms t throttle d hen hroom huser hauth hlen hc
        have htail := ih throttle lo (fun t2 ht2 => h t2 (by simp [ht2]))
        simp [liveTypingRun, hdrop]
        exact htail
      · have hacc := liveTypingHandler_accepted cfg rooms t throttle d hen hroom huser hauth hlen hc
        have hkey : ((mapSetNat throttle (liveTypingKey d.roomId d.userId) t)
            (liveTypingKey d.roomId d.userId)).getD 0 = t := by
          simp [mapSetNat]
        have hlo : lo ≤ t := (h t (by simp)).1
        have hone := liveTypingRun_relay_le_one cfg rooms d hen hroom huser hauth hlen hthr ts
          (mapSetNat throttle (liveTypingKey d.roomId d.userId) t) (lo + cfg.throttleMs)
          (fun t2 ht2 => (h t2 (by simp [ht2])).2)
          (by rw [hkey]; omega)
        simp [liveTypingRun, hacc, relayCount, isLiveTypingRelay] at hone ⊢
        omega

/-! ## C5: the live-typing throttle -/

def roomR : CoupleRoom :=
  { room_id := "r", user1_id := "a", user2_id := some "b", is_active := true }

def rooms0 : String → Option CoupleRoom := fun rid => if rid = "r" then some roomR else none

def d5 : LiveTypingData :=
  { roomId := "r", userId := "a", content := some "hello", cursorPosition := some 5,
    action := some "typing", timestamp := some 42 }

def ts20 : List Nat := (List.range 20).map (fun k => 1000 + 5 * k)

/-- C5: for a fixed (roomId, userId) throttle key with the default 100 ms
interval and authorized, length-valid updates, starting from a fresh key:
(a) of two updates 50 ms apart exactly the first is relayed and the second
produces no emission at all (dropped, not queued); (b) of two updates 150 ms
apart both are relayed; (c) of any burst of updates (e.g. 20) all lying within
one 100 ms window, at most 2 are relayed, from any initial throttle state;
(d) a dropped update records no throttle timestamp (the map is unchanged);
(e) an accepted update records its timestamp and relays the payload verbatim
(content, cursor position, action tag, `timestamp || now`) to the room. -/
theorem C5_live_typing_throttle (cfg : LiveTypingConfig) (rooms : String → Option CoupleRoom)
    (d : LiveTypingData) (t0 : Nat) (throttle0 : String → Option Nat)
    (hen : cfg.enabled = true) (hthr : cfg.throttleMs = 100)
    (hroom : d.roomId ≠ "") (huser : d.userId ≠ "")
    (hauth : validateUserRoomAccess rooms d.userId d.roomId = true)
    (hlen : contentTooLong cfg d.content = false)
    (hfresh : throttle0 (liveTypingKey d.roomId d.userId) = none)
    (ht0 : 100 ≤ t0) :
    (liveTypingRun cfg rooms d throttle0 [t0, t0 + 50]).2
      = [SocketEmit.liveTypingToRoom d.roomId d.userId d.content d.cursorPosition d.action
          (liveTypingTimestamp d.timestamp t0)] ∧
    (liveTypingRun cfg rooms d throttle0 [t0, t0 + 150]).2
      = [SocketEmit.liveTypingToRoom d.roomId d.userId d.content d.cursorPosition d.action
          (liveTypingTimestamp d.timestamp t0),
        SocketEmit.liveTypingToRoom d.roomId d.userId d.content d.cursorPosition d.action
          (liveTypingTimestamp d.timestamp (t0 + 150))] ∧
    (∀ (lo : Nat) (ts : List Nat) (throttle2 : String → Option Nat),
      (∀ t ∈ ts, lo ≤ t ∧ t ≤ lo + 100) →
      relayCount (liveTypingRun cfg rooms d throttle2 ts).2 ≤ 2) ∧
    (∀ (now : Nat) (throttle2 : String → Option Nat),
      now - ((throttle2 (liveTypingKey d.roomId d.userId)).getD 0) < 100 →
      liveTypingHandler cfg rooms now throttle2 d = (throttle2, [])) ∧
    (∀ (now : Nat) (throttle2 : String → Option Nat),
      ¬ now - ((throttle2 (liveTypingKey d.roomId d.userId)).getD 0) < 100 →
      liveTypingHandler cfg rooms now throttle2 d
        = (mapSetNat throttle2 (liveTypingKey d.roomId d.userId) now,
            [SocketEmit.liveTypingToRoom d.roomId d.userId d.content d.cursorPosition d.action
              (liveTypingTimestamp d.timestamp now)])) := by
  have hkey0 : (throttle0 (liveTypingKey d.roomId d.userId)).getD 0 = 0 := by
    rw [hfresh]; rfl
  have hacc1 := liveTypingHandler_accepted cfg rooms t0 throttle0 d hen hroom huser hauth hlen
    (by omega)
  have hkey1 : ((mapSetNat throttle0 (liveTypingKey d.roomId d.userId) t0)
      (liveTypingKey d.roomId d.userId)).getD 0 = t0 := by
    simp [mapSetNat]
  refine ⟨?_, ?_, ?_, ?_, ?_⟩
  · have hdrop2 := liveTypingHandler_dropped cfg rooms (t0 + 50)
      (mapSetNat throttle0 (liveTypingKey d.roomId d.userId) t0) d hen hroom huser hauth hlen
      (by omega)
    simp [liveTypingRun, hacc1, hdrop2]
  · have hacc2 := liveTypingHandler_accepted cfg rooms (t0 + 150)
      (mapSetNat throttle0 (liveTypingKey d.roomId d.userId) t0) d hen hroom huser hauth hlen
      (by omega)
    simp [liveTypingRun, hacc1, hacc2]
  · intro lo ts throttle2 hts
    exact liveTypingRun_relay_le_two cfg rooms d hen hroom huser hauth hlen (by omega)
      ts throttle2 lo (by rw [hthr]; exact hts)
  · intro now throttle2 hlt
    exact liveTypingHandler_dropped cfg rooms now throttle2 d hen hroom huser hauth hlen
      (by omega)
  · intro now throttle2 hge
    exact liveTypingHandler_accepted cfg rooms now throttle2 d hen hroom huser hauth hlen
      (by omega)

theorem C5_live_typing_throttle_witness :
    (defaultLiveTypingConfig.enabled = true ∧
      defaultLiveTypingConfig.throttleMs = 100 ∧
      d5.roomId ≠ "" ∧ d5.userId ≠ "" ∧
      validateUserRoomAccess rooms0 d5.userId d5.roomId = true ∧
      contentTooLong defaultLiveTypingConfig d5.content = false ∧
      (fun _ => (none : Option Nat)) (liveTypingKey d5.roomId d5.userId) = none ∧
      100 ≤ 1000 ∧
      (∀ t ∈ ts20, 1000 ≤ t ∧ t ≤ 1000 + 100) ∧
      (50 : Nat) - (((fun _ => (none : Option Nat))
          (liveTypingKey d5.roomId d5.userId)).getD 0) < 100 ∧
      ¬ (1000 : Nat) - (((fun _ => (none : Option Nat))
          (liveTypingKey d5.roomId d5.userId)).getD 0) < 100) ∧
    (liveTypingRun defaultLiveTypingConfig rooms0 d5 (fun _ => none) [1000, 1000 + 50]).2
      = [SocketEmit.liveTypingToRoom d5.roomId d5.userId d5.content d5.cursorPosition d5.action
          (liveTypingTimestamp d5.timestamp 1000)] ∧
    (liveTypingRun defaultLiveTypingConfig rooms0 d5 (fun _ => none) [1000, 1000 + 150]).2
      = [SocketEmit.liveTypingToRoom d5.roomId d5.userId d5.content d5.cursorPosition d5.action
          (liveTypingTimestamp d5.timestamp 1000),
        SocketEmit.liveTypingToRoom d5.roomId d5.userId d5.content d5.cursorPosition d5.action
          (liveTypingTimestamp d5.timestamp (1000 + 150))] ∧
    relayCount (liveTypingRun defaultLiveTypingConfig rooms0 d5 (fun _ => none) ts20).2 ≤ 2 ∧
    liveTypingHandler defaultLiveTypingConfig rooms0 50 (fun _ => none) d5
      = ((fun _ => none), []) ∧
    liveTypingHandler defaultLiveTypingConfig rooms0 1000 (fun _ => none) d5
      = (mapSetNat (fun _ => none) (liveTypingKey d5.roomId d5.userId) 1000,
          [SocketEmit.liveTypingToRoom d5.roomId d5.userId d5.content d5.cursorPosition d5.action
            (liveTypingTimestamp d5.timestamp 1000)]) :=
  ⟨⟨rfl, rfl, by decide, by decide, by decide, by decide, rfl, by decide, by decide,
      by decide, by decide⟩,
    (C5_live_typing_throttle defaultLiveTypingConfig rooms0 d5 1000 (fun _ => none)
        rfl rfl (by decide) (by decide) (by decide) (by decide) rfl (by decide)).1,
    (C5_live_typing_throttle defaultLiveTypingConfig rooms0 d5 1000 (fun _ => none)
        rfl rfl (by decide) (by decide) (by decide) (by decide) rfl (by decide)).2.1,
    (C5_live_typing_throttle defaultLiveTypingConfig rooms0 d5 1000 (fun _ => none)
        rfl rfl (by decide) (by decide) (by decide) (by decide) rfl (by decide)).2.2.1
      1000 ts20 (fun _ => none) (by decide),
    (C5_live_typing_throttle defaultLiveTypingConfig rooms0 d5 1000 (fun _ => none)
        rfl rfl (by decide) (by decide) (by decide) (by decide) rfl (by decide)).2.2.2.1
      50 (fun _ => none) (by decide),
    (C5_live_typing_throttle defaultLiveTypingConfig rooms0 d5 1000 (fun _ => none)
        rfl rfl (by decide) (by decide) (by decide) (by decide) rfl (by decide)).2.2.2.2
      1000 (fun _ => none) (by decide)⟩

/-! ## Message-store helper lemmas -/

theorem markMessageAsDelivered_absent (id now : Nat) (db : MessagesTable)
    (h : MessageService.getMessage id db = none) :
    MessageService.markMessageAsDelivered id now db = db := by
  cases db with
  | mk rows nextId =>
      simp [MessageService.getMessage] at h
      simp only [MessageService.markMessageAsDelivered]
      congr 1
      funext i
      by_cases hi : i = id
      · subst hi; simp [h]
      · simp [hi]

theorem markMessageAsSeen_absent (id : Nat) (u : String) (now : Nat) (db : MessagesTable)
    (h : MessageService.getMessage id db = none) :
    MessageService.markMessageAsSeen id u now db = db := by
  cases db with
  | mk rows nextId =>
      simp [MessageService.getMessage] at h
      simp only [MessageService.markMessageAsSeen]
      congr 1
      funext i
      by_cases hi : i = id
      · subst hi; simp [h]
      · simp [hi]

theorem getMessage_markMessageAsSeen (id : Nat) (u : String) (now : Nat) (db : MessagesTable) :
    MessageService.getMessage id (MessageService.markMessageAsSeen id u now db)
      = (MessageService.getMessage id db).map
          (fun m => { m with seen_at := some now, seen_by_user_id := some u }) := by
  simp [MessageService.getMessage, MessageService.markMessageAsSeen]

/-- Normal form of the "message-seen" handler on the success path (valid id,
non-empty confirmer, message present in the store). -/
theorem messageSeenHandler_success (presence : Presence) (db : MessagesTable)
    (mid : JsNumber) (id : Nat) (userId : String) (now : Nat) (m : Message)
    (hp : parseMessageId mid = some id) (hu : userId ≠ "")
    (hm : MessageService.getMessage id db = some m) :
    messageSeenHandler presence db mid userId now
      = (MessageService.markMessageAsSeen id userId now db,
          match PresenceService.getSocketByUserId m.sender_id presence with
          | some sid =>
              [SocketEmit.messageSeenToSocket sid id userId m.sender_id m.room_id now,
                SocketEmit.statusUpdateSeenToSocket sid id userId now,
                SocketEmit.seenConfirmedToRoom m.room_id id userId now,
                SocketEmit.readReceiptToSocket sid id userId now]
          | none => [SocketEmit.seenConfirmedToRoom m.room_id id userId now]) := by
  simp only [messageSeenHandler, hp]
  rw [if_neg hu]
  rw [getMessage_markMessageAsSeen, hm]
  cases hs : PresenceService.getSocketByUserId m.sender_id presence <;> simp [hs]

/-! ## C6: invalid or unknown message identifiers -/

/-- C6: both receipt handlers reject an invalid message identifier without
persisting and without emitting: a NaN / non-positive / non-integer id fails
validation (`parseMessageId` yields none) and the handler returns the store
untouched with no emissions; a well-formed id whose message is absent from
the store likewise leaves the store unchanged (the UPDATE matches no row)
and emits nothing. -/
theorem C6_invalid_message_ids_rejected (presence : Presence) (db : MessagesTable)
    (userId : String) (now : Nat) (mid : JsNumber) :
    (parseMessageId mid = none →
      messageDeliveredHandler presence db mid now = (db, []) ∧
      messageSeenHandler presence db mid userId now = (db, [])) ∧
    (∀ id, parseMessageId mid = some id → MessageService.getMessage id db = none →
      messageDeliveredHandler presence db mid now = (db, []) ∧
      messageSeenHandler presence db mid userId now = (db, [])) ∧
    (∀ q : Rat, q ≤ 0 ∨ q.den ≠ 1 → parseMessageId (JsNumber.num q) = none) ∧
    parseMessageId JsNumber.nan = none := by
  refine ⟨?_, ?_, ?_, rfl⟩
  · intro hp
    constructor
    · simp [messageDeliveredHandler, hp]
    · simp [messageSeenHandler, hp]
  · intro id hp habs
    have hdel := markMessageAsDelivered_absent id now db habs
    have hseen := markMessageAsSeen_absent id userId now db habs
    constructor
    · simp [messageDeliveredHandler, hp, hdel, habs]
    · by_cases hu : userId = ""
      · simp [messageSeenHandler, hp, hu]
      · simp [messageSeenHandler, hp, hu, hseen, habs]
  · intro q hq
    simp only [parseMessageId]
    rw [if_pos hq]

/-- The JS number 1.5 (a positive non-integer), as an exact rational. -/
def threeHalves : Rat := ⟨3, 2, by decide, by decide⟩

theorem C6_invalid_message_ids_rejected_witness :
    (parseMessageId (JsNumber.num threeHalves) = none ∧
      messageDeliveredHandler Presence.empty db0 (JsNumber.num threeHalves) 5
        = (db0, []) ∧
      messageSeenHandler Presence.empty db0 (JsNumber.num threeHalves) "b" 5
        = (db0, [])) ∧
    (parseMessageId (JsNumber.num 7) = some 7 ∧
      MessageService.getMessage 7 db0 = none ∧
      messageDeliveredHandler Presence.empty db0 (JsNumber.num 7) 5 = (db0, []) ∧
      messageSeenHandler Presence.empty db0 (JsNumber.num 7) "b" 5 = (db0, [])) ∧
    parseMessageId (JsNumber.num (-2)) = none :=
  ⟨⟨by decide,
      ((C6_invalid_message_ids_rejected Presence.empty db0 "b" 5
          (JsNumber.num threeHalves)).1 (by decide)).1,
      ((C6_invalid_message_ids_rejected Presence.empty db0 "b" 5
          (JsNumber.num threeHalves)).1 (by decide)).2⟩,
    ⟨by decide, by decide,
      ((C6_invalid_message_ids_rejected Presence.empty db0 "b" 5
          (JsNumber.num 7)).2.1 7 (by decide) (by decide)).1,
      ((C6_invalid_message_ids_rejected Presence.empty db0 "b" 5
          (JsNumber.num 7)).2.1 7 (by decide) (by decide)).2⟩,
    (C6_invalid_message_ids_rejected Presence.empty db0 "b" 5
        (JsNumber.num (-2))).2.2.1 (-2) (by decide)⟩

/-! ## C4: seen-confirmation performs no membership check -/

/-- C4 counterexample: user "x" is not a member of room "r" (the room of
message 1), yet a "message-seen" event from "x" for message 1 sets `seen_at`
and `seen_by_user_id` and emits the room-wide notification — the handler
never consults room membership. -/
theorem C4_counterexample :
    validateUserRoomAccess rooms0 "x" "r" = false ∧
    (MessageService.getMessage 1
        (messageSeenHandler Presence.empty db0 (JsNumber.num 1) "x" 77).1).map Message.seen_at
      = some (some 77) ∧
    (MessageService.getMessage 1
        (messageSeenHandler Presence.empty db0 (JsNumber.num 1) "x" 77).1).map
        Message.seen_by_user_id
      = some (some "x") ∧
    (messageSeenHandler Presence.empty db0 (JsNumber.num 1) "x" 77).2
      = [SocketEmit.seenConfirmedToRoom "r" 1 "x" 77] := by
  decide

/-- C4 (amended): the "message-seen" handler performs no membership check at
all: ANY non-empty confirming userId (member of the message's room or not)
with a valid id of an existing message sets `seen_at` and `seen_by_user_id`
to that user and triggers the room-wide `message-seen-confirmed`
notification. -/
theorem C4_seen_accepts_any_user (presence : Presence) (db : MessagesTable)
    (mid : JsNumber) (id : Nat) (userId : String) (now : Nat) (m : Message)
    (hp : parseMessageId mid = some id) (hu : userId ≠ "")
    (hm : MessageService.getMessage id db = some m) :
    MessageService.getMessage id (messageSeenHandler presence db mid userId now).1
      = some { m with seen_at := some now, seen_by_user_id := some userId } ∧
    SocketEmit.seenConfirmedToRoom m.room_id id userId now
      ∈ (messageSeenHandler presence db mid userId now).2 := by
  have h := messageSeenHandler_success presence db mid id userId now m hp hu hm
  constructor
  · rw [h]
    simp [getMessage_markMessageAsSeen, hm]
  · rw [h]
    cases PresenceService.getSocketByUserId m.sender_id presence <;> simp

theorem C4_seen_accepts_any_user_witness :
    (parseMessageId (JsNumber.num 1) = some 1 ∧ ("x" : String) ≠ "" ∧
      MessageService.getMessage 1 db0 = some msg0) ∧
    (MessageService.getMessage 1 (messageSeenHandler Presence.empty db0 (JsNumber.num 1) "x" 77).1
      = some { msg0 with seen_at := some 77, seen_by_user_id := some "x" } ∧
    SocketEmit.seenConfirmedToRoom msg0.room_id 1 "x" 77
      ∈ (messageSeenHandler Presence.empty db0 (JsNumber.num 1) "x" 77).2) :=
  ⟨⟨by decide, by decide, by decide⟩,
    C4_seen_accepts_any_user Presence.empty db0 (JsNumber.num 1) 1 "x" 77 msg0
      (by decide) (by decide) (by decide)⟩

/-! ## C7: notifications on a successful seen-confirmation -/

def presenceA : Presence := PresenceService.setUserOnline "a" "sa" Presence.empty

/-- C7 counterexample: room "r" has members "a" (socket "sa", online) and "b"
(socket "sb"); both sockets are joined to the room. "b" confirms seen for
message 1 from socket "sb". The handler emits the sender-directed events and
the room broadcast, but `socket.to(roomId)` excludes the originating socket:
the recipients of `message-seen-confirmed` are exactly ["sa"], so room member
"b" does NOT receive the "room-wide" notification — it does not reach both
room members. -/
theorem C7_counterexample :
    validateUserRoomAccess rooms0 "b" "r" = true ∧
    (messageSeenHandler presenceA db0 (JsNumber.num 1) "b" 99).2
      = [SocketEmit.messageSeenToSocket "sa" 1 "b" "a" "r" 99,
        SocketEmit.statusUpdateSeenToSocket "sa" 1 "b" 99,
        SocketEmit.seenConfirmedToRoom "r" 1 "b" 99,
        SocketEmit.readReceiptToSocket "sa" 1 "b" 99] ∧
    "sb" ∈ (fun rid => if rid = "r" then ["sa", "sb"] else []) "r" ∧
    recipients (fun rid => if rid = "r" then ["sa", "sb"] else []) "sb"
      (SocketEmit.seenConfirmedToRoom "r" 1 "b" 99) = ["sa"] ∧
    "sb" ∉ recipients (fun rid => if rid = "r" then ["sa", "sb"] else []) "sb"
      (SocketEmit.seenConfirmedToRoom "r" 1 "b" 99) := by
  decide

/-- C7 (amended): when a seen-confirmation for an existing message succeeds
(valid id, non-empty confirmer): the original sender, if and only if
currently online, receives the sender-directed "message-seen" and
"message-status-update" (plus a read receipt); the room broadcast
"message-seen-confirmed" reaches exactly the connections joined to the
message's room OTHER than the confirmer's own originating connection (so the
sender receives it when room-joined, the confirmer does not); and a
subsequent fetch of the message shows `seen_at` set and `seen_by_user_id`
equal to the confirming user. -/
theorem C7_seen_success_notifications (presence : Presence) (db : MessagesTable)
    (mid : JsNumber) (id : Nat) (userId : String) (now : Nat) (m : Message)
    (hp : parseMessageId mid = some id) (hu : userId ≠ "")
    (hm : MessageService.getMessage id db = some m) :
    (∀ sid, PresenceService.getSocketByUserId m.sender_id presence = some sid →
      (messageSeenHandler presence db mid userId now).2
        = [SocketEmit.messageSeenToSocket sid id userId m.sender_id m.room_id now,
          SocketEmit.statusUpdateSeenToSocket sid id userId now,
          SocketEmit.seenConfirmedToRoom m.room_id id userId now,
          SocketEmit.readReceiptToSocket sid id userId now]) ∧
    (PresenceService.getSocketByUserId m.sender_id presence = none →
      (messageSeenHandler presence db mid userId now).2
        = [SocketEmit.seenConfirmedToRoom m.room_id id userId now]) ∧
    (∀ (roomSockets : String → List String) (origin s : String),
      s ∈ recipients roomSockets origin (SocketEmit.seenConfirmedToRoom m.room_id id userId now)
        ↔ s ∈ roomSockets m.room_id ∧ s ≠ origin) ∧
    MessageService.getMessage id (messageSeenHandler presence db mid userId now).1
      = some { m with seen_at := some now, seen_by_user_id := some userId } := by
  have h := messageSeenHandler_success presence db mid id userId now m hp hu hm
  refine ⟨?_, ?_, ?_, ?_⟩
  · intro sid hsid
    rw [h, hsid]
  · intro hnone
    rw [h, hnone]
  · intro roomSockets origin s
    simp [recipients, List.mem_filter]
  · rw [h]
    simp [getMessage_markMessageAsSeen, hm]

theorem C7_seen_success_notifications_witness :
    (parseMessageId (JsNumber.num 1) = some 1 ∧ ("b" : String) ≠ "" ∧
      MessageService.getMessage 1 db0 = some msg0 ∧
      PresenceService.getSocketByUserId msg0.sender_id presenceA = some "sa") ∧
    (messageSeenHandler presenceA db0 (JsNumber.num 1) "b" 99).2
      = [SocketEmit.messageSeenToSocket "sa" 1 "b" msg0.sender_id msg0.room_id 99,
        SocketEmit.statusUpdateSeenToSocket "sa" 1 "b" 99,
        SocketEmit.seenConfirmedToRoom msg0.room_id 1 "b" 99,
        SocketEmit.readReceiptToSocket "sa" 1 "b" 99] ∧
    ("sa" ∈ recipients (fun rid => if rid = "r" then ["sa", "sb"] else []) "sb"
        (SocketEmit.seenConfirmedToRoom msg0.room_id 1 "b" 99)
      ↔ "sa" ∈ (fun rid => if rid = "r" then ["sa", "sb"] else []) msg0.room_id ∧
        ("sa" : String) ≠ "sb") ∧
    MessageService.getMessage 1 (messageSeenHandler presenceA db0 (JsNumber.num 1) "b" 99).1
      = some { msg0 with seen_at := some 99, seen_by_user_id := some "b" } :=
  ⟨⟨by decide, by decide, by decide, by decide⟩,
    (C7_seen_success_notifications presenceA db0 (JsNumber.num 1) 1 "b" 99 msg0
        (by decide) (by decide) (by decide)).1 "sa" (by decide),
    (C7_seen_success_notifications presenceA db0 (JsNumber.num 1) 1 "b" 99 msg0
        (by decide) (by decide) (by decide)).2.2.1
      (fun rid => if rid = "r" then ["sa", "sb"] else []) "sb" "sa",
    (C7_seen_success_notifications presenceA db0 (JsNumber.num 1) 1 "b" 99 msg0
        (by decide) (by decide) (by decide)).2.2.2⟩
